import Mathlib

/-!
Shallow embedding of `soccer/main.py` (soccer-cli): the stats-API client
`_get`, the query handlers, the live-score handlers, and the dispatch logic
of `main`. Static lookup tables (loaded at startup from bundled data files
and sibling modules) are passed as parameters; HTTP responses are passed as
explicit values; `click.secho` output, network requests and renderer
(writer) invocations are recorded in a trace structure.
-/

namespace Soccer

/-- One HTTP response as seen through the `requests` surface the code uses:
a numeric status code and a (typed) body. -/
structure HttpResp (α : Type) where
  status : Nat
  body : α
deriving Repr

/-- Outcome of the stats-API client `_get`:
`ok` returns the response, `apiError` models a raised `APIErrorException`
with its message, and `attrError` models the uncaught `AttributeError`
raised by evaluating `req.status_codes` (a nonexistent attribute) on line
100 of the source. -/
inductive GetResult (α : Type) where
  | ok (body : α)
  | apiError (msg : String)
  | attrError
deriving DecidableEq, Repr

def badRequestMsg : String := "Invalid request. Check parameters."

def forbiddenMsg : String := "This resource is restricted"

def notFoundMsg : String := "This resource does not exist. Check parameters"

/-- `_get` from `main.py` lines 84-101. The four status tests are, in
order: `requests.codes.ok` (200) returns the response;
`requests.codes.bad` (400), `requests.codes.forbidden` (403) and
`requests.codes.not_found` (404) raise `APIErrorException`; every other
status reaches `if req.status_codes == ...` on line 100, which evaluates
the nonexistent attribute `req.status_codes` and so raises
`AttributeError` before any comparison happens. -/
def _get {α : Type} (resp : HttpResp α) : GetResult α :=
  if resp.status = 200 then .ok resp.body
  else if resp.status = 400 then .apiError badRequestMsg
  else if resp.status = 403 then .apiError forbiddenMsg
  else if resp.status = 404 then .apiError notFoundMsg
  else .attrError

/-- Trace of one query-handler run: the request URLs issued (in order), the
`click.secho` messages printed, the payloads handed to the writer
(renderer), and whether an uncaught exception escaped the handler. -/
structure Run (ρ : Type) where
  calls : List String
  messages : List String
  rendered : List ρ
  crashed : Bool
deriving DecidableEq, Repr

/-- Python truthiness of `TEAM_NAMES.get(team, None)`: `None` and `0` are
falsy, any other integer is truthy. -/
def truthyId : Option Nat → Bool
  | none => false
  | some n => n != 0

/-- Python `str` of an optional integer, as used by `.format`: `None`
renders as the literal string `None`. -/
def pyOptStr : Option Nat → String
  | none => "None"
  | some n => toString n

/-- `get_team_scores` from lines 161-182. `teamNames` is the
`TEAM_NAMES` dict (code to id) built from the bundled team table; `resp`
is the stats-API response for the fixtures URL, whose body is modelled as
the `fixtures` list (fixture records kept opaque as strings). -/
def get_team_scores (teamNames : String → Option Nat) (team : String)
    (time : Int) (show_upcoming : Bool) (resp : HttpResp (List String)) :
    Run (List String) :=
  let team_id := teamNames team
  let time_frame := if show_upcoming then "n" else "p"
  if truthyId team_id then
    let url := "teams/" ++ pyOptStr team_id ++ "/fixtures?timeFrame=" ++
      time_frame ++ toString time
    match _get resp with
    | .ok fixtures =>
        if fixtures.length = 0 then
          let word := if show_upcoming then "next" else "past"
          Run.mk [url]
            ["No action during " ++ word ++ " " ++ toString time ++
              " days. Change the time parameter to get more fixtures."] [] false
        else Run.mk [url] [] [fixtures] false
    | .apiError m => Run.mk [url] [m] [] false
    | .attrError => Run.mk [url] [] [] true
  else
    Run.mk [] ["Team code is not correct."] [] false

/-- `get_team_players` from lines 260-276. The body of a successful
response is the pair (count, payload). Note the handler never tests
`team_id` before building the URL: an unknown code yields the URL
`teams/None/players`. -/
def get_team_players (teamNames : String → Option Nat) (team : String)
    (resp : HttpResp (Nat × String)) : Run String :=
  let team_id := teamNames team
  let url := "teams/" ++ pyOptStr team_id ++ "/players"
  match _get resp with
  | .ok body =>
      if body.fst = 0 then
        Run.mk [url] ["No players found for this team"] [] false
      else Run.mk [url] [] [body.snd] false
  | .apiError _ =>
      Run.mk [url] ["No data for the team. Please check the team code."] [] false
  | .attrError => Run.mk [url] [] [] true

/-- One record of the bundled team table `TEAM_DATA`, restricted to the
fields `map_team_id` reads. -/
structure TeamRec where
  code : String
  name : String
deriving DecidableEq, Repr

/-- `map_team_id` from lines 279-286: a for-else loop that prints the name
of the first team whose code matches, or a not-found message. -/
def map_team_id (teamData : List TeamRec) (code : String) : Run String :=
  match teamData.find? (fun t => t.code == code) with
  | some t => Run.mk [] [t.name] [] false
  | none => Run.mk [] ["No team found for this code"] [] false

/-- `get_matchday_standings` from lines 184-207. `leagueIds` is the
`LEAGUE_IDS` table; a missing league code raises `KeyError` (crash).
`compResp` is the response to the competition lookup, its body being the
`currentMatchday` field; `tableResp` is the response to the league-table
fetch, body opaque. Rendered payloads carry the `extended` flag selecting
`standings_extended` over `standings`. -/
def get_matchday_standings (leagueIds : String → Option Nat) (league : String)
    (extended : Bool) (matchday : Int)
    (compResp : HttpResp Int) (tableResp : HttpResp String) :
    Run (String × Bool) :=
  match leagueIds league with
  | none => Run.mk [] [] [] true
  | some league_id =>
    let url1 := "competitions/" ++ toString league_id
    match _get compResp with
    | .apiError _ =>
        Run.mk [url1] ["No standings availble for " ++ league ++ "."] [] false
    | .attrError => Run.mk [url1] [] [] true
    | .ok currentMatchday =>
      if currentMatchday < matchday then
        Run.mk [url1]
          ["The current matchday for this league is " ++
            toString currentMatchday ++
            ", introduce a value that is less than or equal to it."] [] false
      else
        let url2 := "competitions/" ++ toString league_id ++
          "/leagueTable/?matchday=" ++ toString matchday
        match _get tableResp with
        | .ok body => Run.mk [url1, url2] [] [(body, extended)] false
        | .apiError _ =>
            Run.mk [url1, url2]
              ["No standings availble for " ++ league ++ "."] [] false
        | .attrError => Run.mk [url1, url2] [] [] true

/-- `get_standings` from lines 210-224: single league-table fetch. -/
def get_standings (leagueIds : String → Option Nat) (league : String)
    (extended : Bool) (tableResp : HttpResp String) : Run (String × Bool) :=
  match leagueIds league with
  | none => Run.mk [] [] [] true
  | some league_id =>
    let url := "competitions/" ++ toString league_id ++ "/leagueTable"
    match _get tableResp with
    | .ok body => Run.mk [url] [] [(body, extended)] false
    | .apiError _ =>
        Run.mk [url] ["No standings availble for " ++ league ++ "."] [] false
    | .attrError => Run.mk [url] [] [] true

/-- `get_league_scores` from lines 227-257. `league = none` is the
global (all-leagues) branch; note that branch has no empty-result guard. -/
def get_league_scores (leagueIds : String → Option Nat)
    (league : Option String) (time : Int) (show_upcoming : Bool)
    (resp : HttpResp (List String)) : Run (List String) :=
  let time_frame := if show_upcoming then "n" else "p"
  match league with
  | some lg =>
    match leagueIds lg with
    | none => Run.mk [] [] [] true
    | some league_id =>
      let url := "competitions/" ++ toString league_id ++
        "/fixtures?timeFrame=" ++ time_frame ++ toString time
      match _get resp with
      | .ok fixtures =>
          if fixtures.length = 0 then
            let word := if show_upcoming then "next" else "past"
            Run.mk [url]
              ["No " ++ lg ++ " matches in the " ++ word ++ " " ++
                toString time ++ " days."] [] false
          else Run.mk [url] [] [fixtures] false
      | .apiError _ => Run.mk [url] ["No data for the given league."] [] false
      | .attrError => Run.mk [url] [] [] true
  | none =>
    let url := "fixtures?timeFrame=" ++ time_frame ++ toString time
    match _get resp with
    | .ok fixtures => Run.mk [url] [] [fixtures] false
    | .apiError _ => Run.mk [url] ["No data available."] [] false
    | .attrError => Run.mk [url] [] [] true

/-- One record of the live-service games list: its `league` tag plus the
remaining fields, kept opaque. -/
structure LiveGame where
  league : String
  payload : String
deriving DecidableEq, Repr

/-- What a live handler does after rendering: stop, or (when `refresh` is
positive) sleep `seconds` seconds synchronously via `time.sleep` and then
re-invoke itself, fetching again. -/
inductive LiveNext where
  | done
  | sleepThenRepeat (seconds : Int)
deriving DecidableEq, Repr

/-- Trace of one iteration of a live handler. -/
structure LiveRun where
  messages : List String
  rendered : List (List LiveGame)
  next : LiveNext
  crashed : Bool
deriving DecidableEq, Repr

/-- The relabelling loop of `get_live_scores` (lines 112-114): a game whose
league tag is a key of `LEAGUE_KEYS` is renamed to the mapped user-facing
code, any other game is left unchanged. -/
def relabelGames (leagueKeys : String → Option String)
    (games : List LiveGame) : List LiveGame :=
  games.map (fun g =>
    match leagueKeys g.league with
    | some k => LiveGame.mk k g.payload
    | none => g)

/-- `get_live_scores` from lines 104-126. `leagueKeys` is the
`LEAGUE_KEYS` table; `resp` is the live-service response whose body is the
`games` list. A non-200 status prints a generic problem message. -/
def get_live_scores (leagueKeys : String → Option String) (refresh : Int)
    (resp : HttpResp (List LiveGame)) : LiveRun :=
  if resp.status = 200 then
    let games := resp.body
    if games.length = 0 then
      LiveRun.mk ["No live action currently"] [] .done false
    else
      let relabelled := relabelGames leagueKeys games
      if refresh > 0 then
        LiveRun.mk [] [relabelled] (.sleepThenRepeat refresh) false
      else
        LiveRun.mk [] [relabelled] .done false
  else
    LiveRun.mk ["There was problem getting live scores"] [] .done false

/-- The filtering loop of `get_live_league` (lines 137-142): keep, in
order, the games whose league tag equals the requested league's
live-service name, relabelling each kept game to the requested code. -/
def filterLeagueGames (league : String) (liveName : String)
    (games : List LiveGame) : List LiveGame :=
  (games.filter (fun g => g.league == liveName)).map
    (fun g => LiveGame.mk league g.payload)

/-- `get_live_league` from lines 129-158. `leagueNames` is the
`LEAGUE_NAMES` live-service name table; a league code missing from it
raises `KeyError` (crash) once the games list is non-empty. -/
def get_live_league (leagueNames : String → Option String) (league : String)
    (refresh : Int) (resp : HttpResp (List LiveGame)) : LiveRun :=
  if resp.status = 200 then
    let games := resp.body
    if games.length = 0 then
      LiveRun.mk ["No live action currently"] [] .done false
    else
      match leagueNames league with
      | none => LiveRun.mk [] [] .done true
      | some liveName =>
        let filtered := filterLeagueGames league liveName games
        if filtered.length = 0 then
          LiveRun.mk ["No live action currently for " ++ league ++ "."]
            [] .done false
        else if refresh > 0 then
          LiveRun.mk [] [filtered] (.sleepThenRepeat refresh) false
        else
          LiveRun.mk [] [filtered] .done false
  else
    LiveRun.mk ["There was problem getting live scores"] [] .done false

/-- The command-line flags of `main`, with the defaults click supplies:
`refresh = -1`, `matchday = -1`, `time = 6`, `output_format = "stdout"`,
`output_file = none`, booleans false. -/
structure Flags where
  league : Option String
  time : Int
  standings : Bool
  extended : Bool
  matchday : Int
  team : Option String
  live : Bool
  refresh : Int
  use12hour : Bool
  players : Bool
  output_format : String
  output_file : Option String
  upcoming : Bool
  lookup : Bool
  listcodes : Bool
  listleagues : Bool
deriving Repr

/-- The action `main` (lines 385-431) commits to: either an
`IncorrectParametersException` (caught at the top level and printed), a
listing, or a call to one of the query handlers. -/
inductive MainAction where
  | invalidParams (msg : String)
  | listCodesA
  | listLeaguesA
  | liveLeagueA (league : String) (refresh : Int)
  | liveAllA (refresh : Int)
  | matchdayStandingsA (league : String) (matchday : Int) (extended : Bool)
  | standingsA (league : String) (extended : Bool)
  | lookupA (team : String)
  | playersA (team : String)
  | teamScoresA (team : String) (time : Int) (upcoming : Bool)
  | leagueScoresA (league : Option String) (time : Int) (upcoming : Bool)
deriving DecidableEq, Repr

def stdoutConflictMsg : String :=
  "Printing output to stdout and saving to a file are mutually exclusive"

def noLeagueMsg : String :=
  "Please specify a league. Example --standings --league=EPL"

def badTimeMsg : String := "Please specify a time value greater than 0."

/-- Python truthiness of the `output_file` option value: both `None` and
the empty string are falsy, any other string is truthy. -/
def truthyStr : Option String → Bool
  | none => false
  | some s => s != ""

/-- The guard on lines 386-388, `if output_format == 'stdout' and
output_file:` — `output_file` is tested for Python truthiness, so an
empty-string path passes the guard. -/
def stdout_conflict (f : Flags) : Bool :=
  f.output_format == "stdout" && truthyStr f.output_file

/-- `get_writer` (line 389) runs exactly when the stdout/output-file guard
did not raise. -/
def writer_built (f : Flags) : Bool := !stdout_conflict f

/-- The dispatch of `main`, lines 385-431, translated test by test in
source order. -/
def main_dispatch (f : Flags) : MainAction :=
  if stdout_conflict f then .invalidParams stdoutConflictMsg
  else if f.listcodes then .listCodesA
  else if f.listleagues then .listLeaguesA
  else if f.live then
    match f.league with
    | some lg => .liveLeagueA lg f.refresh
    | none => .liveAllA f.refresh
  else if f.standings then
    match f.league with
    | none => .invalidParams noLeagueMsg
    | some lg =>
      if f.matchday > 0 then .matchdayStandingsA lg f.matchday f.extended
      else .standingsA lg f.extended
  else if f.time < 1 then .invalidParams badTimeMsg
  else
    match f.team with
    | some t =>
      if f.lookup then .lookupA t
      else if f.players then .playersA t
      else .teamScoresA t f.time f.upcoming
    | none => .leagueScoresA f.league f.time f.upcoming

/-- The static lookup tables loaded at startup. -/
structure Tables where
  teamNames : String → Option Nat
  teamData : List TeamRec
  leagueIds : String → Option Nat
  leagueNames : String → Option String
  leagueKeys : String → Option String

/-- The responses the remote services would return for each endpoint kind
reachable in one invocation. -/
structure ApiEnv where
  fixturesResp : HttpResp (List String)
  playersResp : HttpResp (Nat × String)
  compResp : HttpResp Int
  tableResp : HttpResp String
  liveResp : HttpResp (List LiveGame)

def LIVE_URL : String := "http://soccer-cli.appspot.com/"

/-- Network requests issued by one invocation of `main` (first live
iteration only for the polling handlers): the listings and a raised
`IncorrectParametersException` issue none; every other action runs its
handler. -/
def main_calls (t : Tables) (env : ApiEnv) (f : Flags) : List String :=
  match main_dispatch f with
  | .invalidParams _ => []
  | .listCodesA => []
  | .listLeaguesA => []
  | .liveLeagueA _ _ => [LIVE_URL]
  | .liveAllA _ => [LIVE_URL]
  | .matchdayStandingsA lg md ext =>
      (get_matchday_standings t.leagueIds lg ext md env.compResp env.tableResp).calls
  | .standingsA lg ext => (get_standings t.leagueIds lg ext env.tableResp).calls
  | .lookupA tm => (map_team_id t.teamData tm).calls
  | .playersA tm => (get_team_players t.teamNames tm env.playersResp).calls
  | .teamScoresA tm time up =>
      (get_team_scores t.teamNames tm time up env.fixturesResp).calls
  | .leagueScoresA lg time up =>
      (get_league_scores t.leagueIds lg time up env.fixturesResp).calls

/-- Number of renderer (writer) invocations in one invocation of `main`
(first live iteration only for the polling handlers). -/
def main_render_count (t : Tables) (env : ApiEnv) (f : Flags) : Nat :=
  match main_dispatch f with
  | .invalidParams _ => 0
  | .listCodesA => 0
  | .listLeaguesA => 0
  | .liveLeagueA lg r =>
      (get_live_league t.leagueNames lg r env.liveResp).rendered.length
  | .liveAllA r => (get_live_scores t.leagueKeys r env.liveResp).rendered.length
  | .matchdayStandingsA lg md ext =>
      (get_matchday_standings t.leagueIds lg ext md env.compResp env.tableResp).rendered.length
  | .standingsA lg ext =>
      (get_standings t.leagueIds lg ext env.tableResp).rendered.length
  | .lookupA tm => (map_team_id t.teamData tm).rendered.length
  | .playersA tm => (get_team_players t.teamNames tm env.playersResp).rendered.length
  | .teamScoresA tm time up =>
      (get_team_scores t.teamNames tm time up env.fixturesResp).rendered.length
  | .leagueScoresA lg time up =>
      (get_league_scores t.leagueIds lg time up env.fixturesResp).rendered.length

end Soccer

open Soccer

/-- C1: the API client maps 200 to the body and 400/403/404 to the three
distinct typed errors, but status 429 does not map to a RateLimited error:
the code evaluates the nonexistent attribute `req.status_codes` and raises
`AttributeError`; likewise every other non-2xx status (e.g. 500) crashes
instead of mapping to a generic Unknown error, and a non-200 2xx status
(e.g. 201) also crashes instead of returning the body. -/
theorem c1_get_status_mapping (b : String) :
    Soccer._get (Soccer.HttpResp.mk 200 b) = .ok b ∧
    Soccer._get (Soccer.HttpResp.mk 400 b) = .apiError Soccer.badRequestMsg ∧
    Soccer._get (Soccer.HttpResp.mk 403 b) = .apiError Soccer.forbiddenMsg ∧
    Soccer._get (Soccer.HttpResp.mk 404 b) = .apiError Soccer.notFoundMsg ∧
    Soccer._get (Soccer.HttpResp.mk 429 b) = .attrError ∧
    Soccer._get (Soccer.HttpResp.mk 500 b) = .attrError ∧
    Soccer._get (Soccer.HttpResp.mk 201 b) = .attrError := by
  refine ⟨?_, ?_, ?_, ?_, ?_, ?_, ?_⟩ <;> rfl

/-- C2 counterexample: for a team code absent from the team table, the
roster handler `get_team_players` does issue a network call — to the URL
`teams/None/players` — contradicting the claim that it reports not-found
without any network call; its not-found message appears only after the
API answers 404. -/
theorem c2_roster_calls_network :
    (get_team_players (fun _ => none) "FOO"
        (HttpResp.mk 404 (0, ""))).calls = ["teams/None/players"] ∧
    (get_team_players (fun _ => none) "FOO"
        (HttpResp.mk 404 (0, ""))).messages =
      ["No data for the team. Please check the team code."] ∧
    ["teams/None/players"] ≠ ([] : List String) := by
  refine ⟨rfl, rfl, by decide⟩

/-- C2 amended: for every team code absent from the team table, the
team-fixtures handler and the team-name lookup handler report a not-found
message and issue no network call; the roster handler `get_team_players`,
however, performs no such check and issues exactly one request, to
`teams/None/players`, whatever the response is. -/
theorem c2_unknown_team_code (tn : String → Option Nat) (td : List TeamRec)
    (code : String) (time : Int) (up : Bool)
    (fresp : HttpResp (List String)) (presp : HttpResp (Nat × String))
    (h1 : tn code = none) (h2 : ∀ t ∈ td, t.code ≠ code) :
    (get_team_scores tn code time up fresp).calls = [] ∧
    (get_team_scores tn code time up fresp).messages =
      ["Team code is not correct."] ∧
    (map_team_id td code).calls = [] ∧
    (map_team_id td code).messages = ["No team found for this code"] ∧
    (get_team_players tn code presp).calls = ["teams/None/players"] := by
  have hf : td.find? (fun t => t.code == code) = none := by
    rw [List.find?_eq_none]
    intro t ht
    simpa using h2 t ht
  refine ⟨?_, ?_, ?_, ?_, ?_⟩
  · simp [get_team_scores, h1, truthyId]
  · simp [get_team_scores, h1, truthyId]
  · simp [map_team_id, hf]
  · simp [map_team_id, hf]
  · simp only [get_team_players, h1, pyOptStr]
    cases hg : _get presp with
    | ok body =>
        rcases body with ⟨c, p⟩
        by_cases hc : c = 0 <;> simp [hc]
    | apiError m => rfl
    | attrError => rfl

/-- C2 witness: instantiating the amended theorem at the empty team-name
table, the single-entry team-data table and the code `XYZ`. -/
theorem c2_unknown_team_code_witness :
    (get_team_scores (fun _ => none) "XYZ" 6 false
        (HttpResp.mk 200 [])).calls = [] ∧
    (get_team_scores (fun _ => none) "XYZ" 6 false
        (HttpResp.mk 200 [])).messages = ["Team code is not correct."] ∧
    (map_team_id [TeamRec.mk "ARS" "Arsenal"] "XYZ").calls = [] ∧
    (map_team_id [TeamRec.mk "ARS" "Arsenal"] "XYZ").messages =
      ["No team found for this code"] ∧
    (get_team_players (fun _ => none) "XYZ"
        (HttpResp.mk 404 (0, ""))).calls = ["teams/None/players"] :=
  c2_unknown_team_code (fun _ => none) [TeamRec.mk "ARS" "Arsenal"] "XYZ"
    6 false (HttpResp.mk 200 []) (HttpResp.mk 404 (0, "")) rfl (by decide)

/-- C3 counterexample: the global (all-leagues) branch of the fixtures
handler invokes the renderer on an empty result set, with no
no-data message, contradicting the claim that every handler guards the
empty case; the guard exists only in the league-specific branch. -/
theorem c3_global_branch_renders_empty :
    (get_league_scores (fun _ => none) none 6 false
        (HttpResp.mk 200 [])).rendered = [[]] ∧
    (get_league_scores (fun _ => none) none 6 false
        (HttpResp.mk 200 [])).messages = [] ∧
    ([[]] : List (List String)) ≠ [] := by
  refine ⟨rfl, rfl, by decide⟩

/-- C3 amended: on an empty result set the league-specific fixtures
branch, the team-fixtures handler and the live-scores handler each emit a
descriptive no-data message and skip the renderer; the global
(all-leagues) fixtures branch, by contrast, forwards whatever fixtures
list a 200 response carries to the renderer unconditionally, the empty
list included. -/
theorem c3_empty_result_guards (leagueIds tn : String → Option Nat)
    (lk : String → Option String) (lg team : String) (lgid tid : Nat)
    (time refresh : Int) (up : Bool) (fixtures : List String)
    (hlg : leagueIds lg = some lgid) (htn : tn team = some tid)
    (htid : tid ≠ 0) :
    (get_league_scores leagueIds (some lg) time up
        (HttpResp.mk 200 [])).rendered = [] ∧
    (get_league_scores leagueIds (some lg) time up
        (HttpResp.mk 200 [])).messages =
      ["No " ++ lg ++ " matches in the " ++ (if up then "next" else "past") ++
        " " ++ toString time ++ " days."] ∧
    (get_team_scores tn team time up (HttpResp.mk 200 [])).rendered = [] ∧
    (get_team_scores tn team time up (HttpResp.mk 200 [])).messages =
      ["No action during " ++ (if up then "next" else "past") ++ " " ++
        toString time ++ " days. Change the time parameter to get more fixtures."] ∧
    (get_live_scores lk refresh (HttpResp.mk 200 [])).rendered = [] ∧
    (get_live_scores lk refresh (HttpResp.mk 200 [])).messages =
      ["No live action currently"] ∧
    (get_league_scores leagueIds none time up
        (HttpResp.mk 200 fixtures)).rendered = [fixtures] := by
  refine ⟨?_, ?_, ?_, ?_, ?_, ?_, ?_⟩
  · simp [get_league_scores, hlg, _get]
  · simp [get_league_scores, hlg, _get]
  · simp [get_team_scores, htn, truthyId, htid, _get]
  · simp [get_team_scores, htn, truthyId, htid, _get]
  · simp [get_live_scores]
  · simp [get_live_scores]
  · simp [get_league_scores, _get]

/-- C3 witness: instantiating the amended theorem at league `EPL` (id
424), team `ARS` (id 57), a 6-day past window and a singleton global
fixtures list. -/
theorem c3_empty_result_guards_witness :
    (get_league_scores (fun _ => some 424) (some "EPL") 6 false
        (HttpResp.mk 200 [])).rendered = [] ∧
    (get_league_scores (fun _ => some 424) (some "EPL") 6 false
        (HttpResp.mk 200 [])).messages =
      ["No " ++ "EPL" ++ " matches in the " ++
        (if false then "next" else "past") ++ " " ++ toString (6 : Int) ++
        " days."] ∧
    (get_team_scores (fun _ => some 57) "ARS" 6 false
        (HttpResp.mk 200 [])).rendered = [] ∧
    (get_team_scores (fun _ => some 57) "ARS" 6 false
        (HttpResp.mk 200 [])).messages =
      ["No action during " ++ (if false then "next" else "past") ++ " " ++
        toString (6 : Int) ++
        " days. Change the time parameter to get more fixtures."] ∧
    (get_live_scores (fun _ => none) (-1) (HttpResp.mk 200 [])).rendered = [] ∧
    (get_live_scores (fun _ => none) (-1) (HttpResp.mk 200 [])).messages =
      ["No live action currently"] ∧
    (get_league_scores (fun _ => some 424) none 6 false
        (HttpResp.mk 200 ["fixture1"])).rendered = [["fixture1"]] :=
  c3_empty_result_guards (fun _ => some 424) (fun _ => some 57)
    (fun _ => none) "EPL" "ARS" 424 57 6 (-1) false ["fixture1"]
    rfl rfl (by decide)

/-- C4: when the competition lookup reports current matchday `cm`, a
requested matchday strictly greater than `cm` makes the handler print a
message reporting `cm` and stop after the single lookup call — the
league-table fetch is not issued and nothing is rendered; a requested
matchday at most `cm` makes the handler issue the table fetch as its
second call. -/
theorem c4_matchday_guard (leagueIds : String → Option Nat) (lg : String)
    (lgid : Nat) (ext : Bool) (md cm : Int) (tableResp : HttpResp String)
    (hlg : leagueIds lg = some lgid) :
    (cm < md →
      (get_matchday_standings leagueIds lg ext md (HttpResp.mk 200 cm)
          tableResp).calls = ["competitions/" ++ toString lgid] ∧
      (get_matchday_standings leagueIds lg ext md (HttpResp.mk 200 cm)
          tableResp).messages =
        ["The current matchday for this league is " ++ toString cm ++
          ", introduce a value that is less than or equal to it."] ∧
      (get_matchday_standings leagueIds lg ext md (HttpResp.mk 200 cm)
          tableResp).rendered = []) ∧
    (md ≤ cm →
      (get_matchday_standings leagueIds lg ext md (HttpResp.mk 200 cm)
          tableResp).calls =
        ["competitions/" ++ toString lgid,
          "competitions/" ++ toString lgid ++ "/leagueTable/?matchday=" ++
            toString md]) := by
  constructor
  · intro hlt
    refine ⟨?_, ?_, ?_⟩ <;> simp [get_matchday_standings, hlg, _get, hlt]
  · intro hle
    have hnot : ¬ cm < md := not_lt.mpr hle
    simp only [get_matchday_standings, hlg, _get]
    norm_num [hnot]
    cases hg : _get tableResp <;> simp_all [_get]

/-- C4 witness: league `EPL` (id 424), current matchday 10; requesting
matchday 11 stops after the lookup and reports 10, requesting matchday 10
issues the table fetch. -/
theorem c4_matchday_guard_witness :
    ((10 : Int) < 11 →
      (get_matchday_standings (fun _ => some 424) "EPL" false 11
          (HttpResp.mk 200 10) (HttpResp.mk 200 "tbl")).calls =
        ["competitions/" ++ toString (424 : Nat)] ∧
      (get_matchday_standings (fun _ => some 424) "EPL" false 11
          (HttpResp.mk 200 10) (HttpResp.mk 200 "tbl")).messages =
        ["The current matchday for this league is " ++ toString (10 : Int) ++
          ", introduce a value that is less than or equal to it."] ∧
      (get_matchday_standings (fun _ => some 424) "EPL" false 11
          (HttpResp.mk 200 10) (HttpResp.mk 200 "tbl")).rendered = []) ∧
    ((11 : Int) ≤ 10 →
      (get_matchday_standings (fun _ => some 424) "EPL" false 11
          (HttpResp.mk 200 10) (HttpResp.mk 200 "tbl")).calls =
        ["competitions/" ++ toString (424 : Nat),
          "competitions/" ++ toString (424 : Nat) ++
            "/leagueTable/?matchday=" ++ toString (11 : Int)]) :=
  c4_matchday_guard (fun _ => some 424) "EPL" 424 false 11 10
    (HttpResp.mk 200 "tbl") rfl

/-- C5: on a non-empty live-games list, the per-league handler computes
exactly the sublist of games whose league tag equals the requested
league's live-service display name, each relabelled to the requested
league code; when that sublist is empty it prints the per-league no-action
message and does not render, and when it is non-empty it forwards exactly
that sublist to the renderer. -/
theorem c5_live_league_filter (leagueNames : String → Option String)
    (league liveName : String) (refresh : Int) (games : List LiveGame)
    (hne : games ≠ []) (hname : leagueNames league = some liveName) :
    filterLeagueGames league liveName games =
      (games.filter (fun g => g.league == liveName)).map
        (fun g => LiveGame.mk league g.payload) ∧
    (filterLeagueGames league liveName games = [] →
      (get_live_league leagueNames league refresh
          (HttpResp.mk 200 games)).messages =
        ["No live action currently for " ++ league ++ "."] ∧
      (get_live_league leagueNames league refresh
          (HttpResp.mk 200 games)).rendered = []) ∧
    (filterLeagueGames league liveName games ≠ [] →
      (get_live_league leagueNames league refresh
          (HttpResp.mk 200 games)).rendered =
        [filterLeagueGames league liveName games]) := by
  have hlen : games.length ≠ 0 := by
    simpa [List.length_eq_zero] using hne
  refine ⟨rfl, ?_, ?_⟩
  · intro hempty
    constructor <;>
      simp [get_live_league, hlen, hname, hempty]
  · intro hnonempty
    have hlen2 : (filterLeagueGames league liveName games).length ≠ 0 := by
      simpa [List.length_eq_zero] using hnonempty
    by_cases hr : refresh > 0 <;>
      simp [get_live_league, hlen, hname, hlen2, hr]

/-- C5 witness: two games tagged with the live-service name
`Premier League` and one with `Serie A`; filtering by `EPL` (mapped to
`Premier League`) forwards exactly the two relabelled games. -/
theorem c5_live_league_filter_witness :
    filterLeagueGames "EPL" "Premier League"
        [LiveGame.mk "Premier League" "g1", LiveGame.mk "Serie A" "g2",
          LiveGame.mk "Premier League" "g3"] =
      (([LiveGame.mk "Premier League" "g1", LiveGame.mk "Serie A" "g2",
          LiveGame.mk "Premier League" "g3"].filter
            (fun g => g.league == "Premier League")).map
        (fun g => LiveGame.mk "EPL" g.payload)) ∧
    (filterLeagueGames "EPL" "Premier League"
        [LiveGame.mk "Premier League" "g1", LiveGame.mk "Serie A" "g2",
          LiveGame.mk "Premier League" "g3"] = [] →
      (get_live_league (fun _ => some "Premier League") "EPL" (-1)
          (HttpResp.mk 200
            [LiveGame.mk "Premier League" "g1", LiveGame.mk "Serie A" "g2",
              LiveGame.mk "Premier League" "g3"])).messages =
        ["No live action currently for " ++ "EPL" ++ "."] ∧
      (get_live_league (fun _ => some "Premier League") "EPL" (-1)
          (HttpResp.mk 200
            [LiveGame.mk "Premier League" "g1", LiveGame.mk "Serie A" "g2",
              LiveGame.mk "Premier League" "g3"])).rendered = []) ∧
    (filterLeagueGames "EPL" "Premier League"
        [LiveGame.mk "Premier League" "g1", LiveGame.mk "Serie A" "g2",
          LiveGame.mk "Premier League" "g3"] ≠ [] →
      (get_live_league (fun _ => some "Premier League") "EPL" (-1)
          (HttpResp.mk 200
            [LiveGame.mk "Premier League" "g1", LiveGame.mk "Serie A" "g2",
              LiveGame.mk "Premier League" "g3"])).rendered =
        [filterLeagueGames "EPL" "Premier League"
          [LiveGame.mk "Premier League" "g1", LiveGame.mk "Serie A" "g2",
            LiveGame.mk "Premier League" "g3"]]) :=
  c5_live_league_filter (fun _ => some "Premier League") "EPL"
    "Premier League" (-1)
    [LiveGame.mk "Premier League" "g1", LiveGame.mk "Serie A" "g2",
      LiveGame.mk "Premier League" "g3"] (by decide) rfl

/-- C6: whenever a live handler renders (non-empty games, and for the
per-league handler a non-empty filtered sublist), a positive refresh value
makes it render once and then sleep exactly `refresh` seconds before
re-invoking itself, while a zero or negative refresh makes it render
exactly once and terminate; this holds for both the unfiltered and the
per-league live handler. -/
theorem c6_refresh_modes (leagueKeys leagueNames : String → Option String)
    (league liveName : String) (refresh : Int) (games : List LiveGame)
    (hne : games ≠ []) (hname : leagueNames league = some liveName)
    (hfne : filterLeagueGames league liveName games ≠ []) :
    (refresh > 0 →
      (get_live_scores leagueKeys refresh
          (HttpResp.mk 200 games)).rendered.length = 1 ∧
      (get_live_scores leagueKeys refresh (HttpResp.mk 200 games)).next =
        .sleepThenRepeat refresh ∧
      (get_live_league leagueNames league refresh
          (HttpResp.mk 200 games)).rendered.length = 1 ∧
      (get_live_league leagueNames league refresh
          (HttpResp.mk 200 games)).next = .sleepThenRepeat refresh) ∧
    (refresh ≤ 0 →
      (get_live_scores leagueKeys refresh
          (HttpResp.mk 200 games)).rendered.length = 1 ∧
      (get_live_scores leagueKeys refresh (HttpResp.mk 200 games)).next =
        .done ∧
      (get_live_league leagueNames league refresh
          (HttpResp.mk 200 games)).rendered.length = 1 ∧
      (get_live_league leagueNames league refresh
          (HttpResp.mk 200 games)).next = .done) := by
  have hlen : games.length ≠ 0 := by
    simpa [List.length_eq_zero] using hne
  have hflen : (filterLeagueGames league liveName games).length ≠ 0 := by
    simpa [List.length_eq_zero] using hfne
  constructor
  · intro hr
    refine ⟨?_, ?_, ?_, ?_⟩ <;>
      simp [get_live_scores, get_live_league, hlen, hname, hflen, hr]
  · intro hr
    have hnot : ¬ refresh > 0 := not_lt.mpr hr
    refine ⟨?_, ?_, ?_, ?_⟩ <;>
      simp [get_live_scores, get_live_league, hlen, hname, hflen, hnot]

/-- C6 witness: one live game tagged `Premier League`, requested league
`EPL`; instantiated at refresh 7 the positive branch applies, and the same
theorem instantiated at refresh 0 gives the single-shot branch. -/
theorem c6_refresh_modes_witness :
    ((7 : Int) > 0 →
      (get_live_scores (fun _ => none) 7
          (HttpResp.mk 200 [LiveGame.mk "Premier League" "g1"])).rendered.length = 1 ∧
      (get_live_scores (fun _ => none) 7
          (HttpResp.mk 200 [LiveGame.mk "Premier League" "g1"])).next =
        .sleepThenRepeat 7 ∧
      (get_live_league (fun _ => some "Premier League") "EPL" 7
          (HttpResp.mk 200 [LiveGame.mk "Premier League" "g1"])).rendered.length = 1 ∧
      (get_live_league (fun _ => some "Premier League") "EPL" 7
          (HttpResp.mk 200 [LiveGame.mk "Premier League" "g1"])).next =
        .sleepThenRepeat 7) ∧
    ((7 : Int) ≤ 0 →
      (get_live_scores (fun _ => none) 7
          (HttpResp.mk 200 [LiveGame.mk "Premier League" "g1"])).rendered.length = 1 ∧
      (get_live_scores (fun _ => none) 7
          (HttpResp.mk 200 [LiveGame.mk "Premier League" "g1"])).next = .done ∧
      (get_live_league (fun _ => some "Premier League") "EPL" 7
          (HttpResp.mk 200 [LiveGame.mk "Premier League" "g1"])).rendered.length = 1 ∧
      (get_live_league (fun _ => some "Premier League") "EPL" 7
          (HttpResp.mk 200 [LiveGame.mk "Premier League" "g1"])).next = .done) :=
  c6_refresh_modes (fun _ => none) (fun _ => some "Premier League") "EPL"
    "Premier League" 7 [LiveGame.mk "Premier League" "g1"] (by decide) rfl
    (by decide)

/-- C10: on a non-empty games list with a 200 response, the unfiltered
live handler forwards to the renderer exactly one bundle containing every
game in order: games whose league tag is a key of the league-key table are
relabelled to the mapped code, the others pass through unchanged, and the
count of games is preserved. -/
theorem c10_live_forwards_all (leagueKeys : String → Option String)
    (refresh : Int) (games : List LiveGame) (hne : games ≠ []) :
    (get_live_scores leagueKeys refresh (HttpResp.mk 200 games)).rendered =
      [games.map (fun g =>
        match leagueKeys g.league with
        | some k => LiveGame.mk k g.payload
        | none => g)] ∧
    (relabelGames leagueKeys games).length = games.length := by
  have hlen : games.length ≠ 0 := by
    simpa [List.length_eq_zero] using hne
  constructor
  · by_cases hr : refresh > 0 <;>
      simp [get_live_scores, hlen, hr, relabelGames]
  · simp [relabelGames]

/-- C10 witness: two games, one tagged with a key of the table
(`Premier League`, mapped to `EPL`) and one with an unknown tag; both are
forwarded, the first relabelled and the second unchanged. -/
theorem c10_live_forwards_all_witness :
    (get_live_scores
        (fun s => if s == "Premier League" then some "EPL" else none) 0
        (HttpResp.mk 200
          [LiveGame.mk "Premier League" "g1",
            LiveGame.mk "Mystery League" "g2"])).rendered =
      [[LiveGame.mk "Premier League" "g1",
          LiveGame.mk "Mystery League" "g2"].map (fun g =>
        match
          (fun s => if s == "Premier League" then some "EPL" else none)
            g.league with
        | some k => LiveGame.mk k g.payload
        | none => g)] ∧
    (relabelGames
        (fun s => if s == "Premier League" then some "EPL" else none)
        [LiveGame.mk "Premier League" "g1",
          LiveGame.mk "Mystery League" "g2"]).length =
      [LiveGame.mk "Premier League" "g1",
        LiveGame.mk "Mystery League" "g2"].length :=
  c10_live_forwards_all
    (fun s => if s == "Premier League" then some "EPL" else none) 0
    [LiveGame.mk "Premier League" "g1", LiveGame.mk "Mystery League" "g2"]
    (by decide)

/-- C7: a fixtures query (no listing, no live, no standings) with a time
window of zero or a negative value is rejected with the
incorrect-parameters message before any network call and before any
rendering; the `upcoming` flag is unconstrained, so this covers both the
upcoming and the past direction. -/
theorem c7_time_guard (t : Tables) (env : ApiEnv) (f : Flags)
    (h0 : stdout_conflict f = false) (h1 : f.listcodes = false)
    (h2 : f.listleagues = false) (h3 : f.live = false)
    (h4 : f.standings = false) (h5 : f.time ≤ 0) :
    main_dispatch f = .invalidParams badTimeMsg ∧
    main_calls t env f = [] ∧ main_render_count t env f = 0 := by
  have h6 : f.time < 1 := by omega
  have hd : main_dispatch f = .invalidParams badTimeMsg := by
    simp [main_dispatch, h0, h1, h2, h3, h4, h6]
  exact ⟨hd, by simp [main_calls, hd], by simp [main_render_count, hd]⟩

/-- C7 witness: default flags with time 0 and the upcoming direction
selected. -/
theorem c7_time_guard_witness :
    main_dispatch
        (Flags.mk none 0 false false (-1) none false (-1) false false
          "stdout" none true false false false) =
      .invalidParams badTimeMsg ∧
    main_calls
        (Tables.mk (fun _ => none) [] (fun _ => none) (fun _ => none)
          (fun _ => none))
        (ApiEnv.mk (HttpResp.mk 200 []) (HttpResp.mk 200 (0, ""))
          (HttpResp.mk 200 1) (HttpResp.mk 200 "") (HttpResp.mk 200 []))
        (Flags.mk none 0 false false (-1) none false (-1) false false
          "stdout" none true false false false) = [] ∧
    main_render_count
        (Tables.mk (fun _ => none) [] (fun _ => none) (fun _ => none)
          (fun _ => none))
        (ApiEnv.mk (HttpResp.mk 200 []) (HttpResp.mk 200 (0, ""))
          (HttpResp.mk 200 1) (HttpResp.mk 200 "") (HttpResp.mk 200 []))
        (Flags.mk none 0 false false (-1) none false (-1) false false
          "stdout" none true false false false) = 0 :=
  c7_time_guard
    (Tables.mk (fun _ => none) [] (fun _ => none) (fun _ => none)
      (fun _ => none))
    (ApiEnv.mk (HttpResp.mk 200 []) (HttpResp.mk 200 (0, ""))
      (HttpResp.mk 200 1) (HttpResp.mk 200 "") (HttpResp.mk 200 []))
    (Flags.mk none 0 false false (-1) none false (-1) false false
      "stdout" none true false false false)
    rfl rfl rfl rfl rfl (by decide)

/-- C8 counterexample: supplying stdout output together with the explicit
but empty output file path passes the truthiness guard of line 386 — the
empty string is falsy in Python — so a live invocation with `-o ""` is not
rejected: the writer is constructed, no incorrect-parameters outcome
arises, and the live network call is issued. -/
theorem c8_empty_path_not_rejected :
    writer_built
        (Flags.mk none 6 false false (-1) none true (-1) false false
          "stdout" (some "") false false false false) = true ∧
    main_dispatch
        (Flags.mk none 6 false false (-1) none true (-1) false false
          "stdout" (some "") false false false false) = .liveAllA (-1) ∧
    main_calls
        (Tables.mk (fun _ => none) [] (fun _ => none) (fun _ => none)
          (fun _ => none))
        (ApiEnv.mk (HttpResp.mk 200 []) (HttpResp.mk 200 (0, ""))
          (HttpResp.mk 200 1) (HttpResp.mk 200 "") (HttpResp.mk 200 []))
        (Flags.mk none 6 false false (-1) none true (-1) false false
          "stdout" (some "") false false false false) = [LIVE_URL] ∧
    [LIVE_URL] ≠ ([] : List String) ∧
    (∀ msg,
      main_dispatch
          (Flags.mk none 6 false false (-1) none true (-1) false false
            "stdout" (some "") false false false false) ≠
        .invalidParams msg) :=
  ⟨rfl, rfl, rfl, by decide, fun msg h => MainAction.noConfusion h⟩

/-- C8 amended: selecting the default stdout output target together with
a non-empty output file path is rejected with the mutual-exclusion
message before the writer is constructed, before any network call and
before any rendering; an empty-string path is falsy under Python
truthiness and passes the guard. -/
theorem c8_stdout_conflict_rejected (t : Tables) (env : ApiEnv) (f : Flags)
    (p : String) (h1 : f.output_format = "stdout")
    (h2 : f.output_file = some p) (h3 : p ≠ "") :
    main_dispatch f = .invalidParams stdoutConflictMsg ∧
    writer_built f = false ∧
    main_calls t env f = [] ∧ main_render_count t env f = 0 := by
  have hc : stdout_conflict f = true := by
    simp [stdout_conflict, truthyStr, h1, h2, h3]
  have hd : main_dispatch f = .invalidParams stdoutConflictMsg := by
    simp [main_dispatch, hc]
  refine ⟨hd, ?_, by simp [main_calls, hd], by simp [main_render_count, hd]⟩
  simp [writer_built, hc]

/-- C8 witness: default flags with stdout output and an explicit output
file `out.csv`. -/
theorem c8_stdout_conflict_rejected_witness :
    main_dispatch
        (Flags.mk none 6 false false (-1) none false (-1) false false
          "stdout" (some "out.csv") false false false false) =
      .invalidParams stdoutConflictMsg ∧
    writer_built
        (Flags.mk none 6 false false (-1) none false (-1) false false
          "stdout" (some "out.csv") false false false false) = false ∧
    main_calls
        (Tables.mk (fun _ => none) [] (fun _ => none) (fun _ => none)
          (fun _ => none))
        (ApiEnv.mk (HttpResp.mk 200 []) (HttpResp.mk 200 (0, ""))
          (HttpResp.mk 200 1) (HttpResp.mk 200 "") (HttpResp.mk 200 []))
        (Flags.mk none 6 false false (-1) none false (-1) false false
          "stdout" (some "out.csv") false false false false) = [] ∧
    main_render_count
        (Tables.mk (fun _ => none) [] (fun _ => none) (fun _ => none)
          (fun _ => none))
        (ApiEnv.mk (HttpResp.mk 200 []) (HttpResp.mk 200 (0, ""))
          (HttpResp.mk 200 1) (HttpResp.mk 200 "") (HttpResp.mk 200 []))
        (Flags.mk none 6 false false (-1) none false (-1) false false
          "stdout" (some "out.csv") false false false false) = 0 :=
  c8_stdout_conflict_rejected
    (Tables.mk (fun _ => none) [] (fun _ => none) (fun _ => none)
      (fun _ => none))
    (ApiEnv.mk (HttpResp.mk 200 []) (HttpResp.mk 200 (0, ""))
      (HttpResp.mk 200 1) (HttpResp.mk 200 "") (HttpResp.mk 200 []))
    (Flags.mk none 6 false false (-1) none false (-1) false false
      "stdout" (some "out.csv") false false false false)
    "out.csv" rfl rfl (by decide)

/-- C9: a standings request whose matchday value is zero or negative
(including the click default of -1) dispatches silently to the plain
current-table standings handler: it is never reported as an
incorrect-parameters error and the matchday-guarded handler is never
selected. -/
theorem c9_nonpositive_matchday (f : Flags) (lg : String)
    (h0 : stdout_conflict f = false) (h1 : f.listcodes = false)
    (h2 : f.listleagues = false) (h3 : f.live = false)
    (h4 : f.standings = true) (h5 : f.league = some lg)
    (h6 : f.matchday ≤ 0) :
    main_dispatch f = .standingsA lg f.extended ∧
    (∀ msg, main_dispatch f ≠ .invalidParams msg) ∧
    (∀ lg2 md ext, main_dispatch f ≠ .matchdayStandingsA lg2 md ext) := by
  have h7 : ¬ f.matchday > 0 := by omega
  have hd : main_dispatch f = .standingsA lg f.extended := by
    simp [main_dispatch, h0, h1, h2, h3, h4, h5, h7]
  exact ⟨hd, fun msg => by simp [hd], fun lg2 md ext => by simp [hd]⟩

/-- C9 witness: a standings request for `EPL` with the default matchday
value -1. -/
theorem c9_nonpositive_matchday_witness :
    main_dispatch
        (Flags.mk (some "EPL") 6 true false (-1) none false (-1) false
          false "stdout" none false false false false) =
      .standingsA "EPL"
        (Flags.mk (some "EPL") 6 true false (-1) none false (-1) false
          false "stdout" none false false false false).extended ∧
    (∀ msg,
      main_dispatch
          (Flags.mk (some "EPL") 6 true false (-1) none false (-1) false
            false "stdout" none false false false false) ≠
        .invalidParams msg) ∧
    (∀ lg2 md ext,
      main_dispatch
          (Flags.mk (some "EPL") 6 true false (-1) none false (-1) false
            false "stdout" none false false false false) ≠
        .matchdayStandingsA lg2 md ext) :=
  c9_nonpositive_matchday
    (Flags.mk (some "EPL") 6 true false (-1) none false (-1) false false
      "stdout" none false false false false)
    "EPL" rfl rfl rfl rfl rfl rfl (by decide)
